import Mathlib

/-!
Shallow embedding of the ecosystem simulation (src/ecosystem_simulation_system.py).

Python objects are modelled as immutable Lean structures; in-place mutation
becomes explicit state passing.  Python `float` values are modelled as rationals.
The global random source (`random.random()` / `random.choice`) is modelled as an
oracle `RNG`: a stream of "float" draws in `[0,1)` and a stream of pick numbers,
each with a cursor; `random.choice(seq)` takes the next pick number modulo the
length of `seq`, so every element of `seq` is chosen for some oracle value.
Heap aliasing inside `Environment.simulate_day` (the candidate lists hold
references into the environment's organism list) is modelled by operating on
indices into that list.
-/

namespace Eco

/-- A Python argument that may or may not be a string (`isinstance(id, str)`). -/
inductive PyVal where
  | str (s : String)
  | nonstr
deriving DecidableEq, Repr

/-- The extra attributes shared by all `Animal` instances
(`_speed`, `_diet_type`, `_food_eaten`). -/
structure AnimalData where
  speed : ℚ
  diet_type : String
  food_eaten : ℕ
deriving DecidableEq, Repr

/-- The concrete Python class of an organism together with its
subclass-specific attributes. -/
inductive OrgData where
  | base
  | plant (growth_rate : ℚ)
  | animal (a : AnimalData)
  | herbivore (a : AnimalData) (plant_preference : String)
  | carnivore (a : AnimalData) (hunting_efficiency : ℚ)
deriving DecidableEq, Repr

/-- An organism: the fields of the Python `Organism` base class plus the
subclass data (`_id`, `_species_name`, `_energy`, `_is_alive`). -/
structure Organism where
  id : String
  species_name : String
  energy : ℚ
  is_alive : Bool
  odata : OrgData
deriving DecidableEq, Repr

instance : Inhabited Organism := ⟨⟨"", "", 0, false, .base⟩⟩

/-- `Organism.__init__`: raises `InvalidInputException` iff the id argument is
not a non-empty string (`if not isinstance(id, str) or not id`); otherwise all
fields are stored exactly as given, with no further validation. -/
def Organism.mkChecked (idArg : PyVal) (species : String) (energy : ℚ)
    (alive : Bool) (d : OrgData) : Except String Organism :=
  match idArg with
  | .str s =>
      if s = "" then .error "Organism ID must be a non-empty string"
      else .ok ⟨s, species, energy, alive, d⟩
  | .nonstr => .error "Organism ID must be a non-empty string"

def Organism.isPlant (o : Organism) : Bool :=
  match o.odata with | .plant _ => true | _ => false

def Organism.isHerbivore (o : Organism) : Bool :=
  match o.odata with | .herbivore _ _ => true | _ => false

def Organism.isCarnivore (o : Organism) : Bool :=
  match o.odata with | .carnivore _ _ => true | _ => false

/-- `isinstance(o, Animal)` (Animal, Herbivore or Carnivore). -/
def Organism.isAnimalKind (o : Organism) : Bool :=
  match o.odata with
  | .animal _ | .herbivore _ _ | .carnivore _ _ => true
  | _ => false

def Organism.growth_rate (o : Organism) : ℚ :=
  match o.odata with | .plant g => g | _ => 0

def Organism.speed (o : Organism) : ℚ :=
  match o.odata with
  | .animal a => a.speed
  | .herbivore a _ => a.speed
  | .carnivore a _ => a.speed
  | _ => 0

def Organism.food_eaten (o : Organism) : ℕ :=
  match o.odata with
  | .animal a => a.food_eaten
  | .herbivore a _ => a.food_eaten
  | .carnivore a _ => a.food_eaten
  | _ => 0

def Organism.plant_preference (o : Organism) : String :=
  match o.odata with | .herbivore _ p => p | _ => ""

def Organism.hunting_efficiency (o : Organism) : ℚ :=
  match o.odata with | .carnivore _ h => h | _ => 0

/-- `self._food_eaten += 1` on an animal (no-op on a non-animal). -/
def Organism.bumpFood (o : Organism) : Organism :=
  { o with odata :=
      match o.odata with
      | .animal a => .animal { a with food_eaten := a.food_eaten + 1 }
      | .herbivore a p => .herbivore { a with food_eaten := a.food_eaten + 1 } p
      | .carnivore a h => .carnivore { a with food_eaten := a.food_eaten + 1 } h
      | d => d }

/-- The `energy` property setter:
`self._energy = max(0, value); if self._energy <= 0: self._is_alive = False`. -/
def setEnergy (o : Organism) (v : ℚ) : Organism :=
  { o with
    energy := max 0 v
    is_alive := if max 0 v ≤ 0 then false else o.is_alive }

/-- `Organism.consume_energy(amount)`: `self.energy -= amount; return self._is_alive`. -/
def consume_energy (o : Organism) (amount : ℚ) : Organism × Bool :=
  let o' := setEnergy o (o.energy - amount)
  (o', o'.is_alive)

/-- The weather factor table used by `Plant.photosynthesize`
(`weather_factors.get(weather_condition, 0.5)`). -/
def weather_factor (w : String) : ℚ :=
  if w = "sunny" then 1
  else if w = "cloudy" then 6/10
  else if w = "rainy" then 3/10
  else 1/2

/-- `Plant.photosynthesize(weather_condition)`: gain = `10 * growth_rate * factor`,
added to energy via the setter; the gain is returned. -/
def photosynthesize (o : Organism) (w : String) : Organism × ℚ :=
  let gain := 10 * o.growth_rate * weather_factor w
  (setEnergy o (o.energy + gain), gain)

/-- `Plant.interact(other_organism)`: note the source checks
`isinstance(other_organism, Herbivore) and self._is_alive` — the target's own
liveness is NOT checked. Returns (new self, new other, result). -/
def plant_interact (self other : Organism) : Organism × Organism × Bool :=
  if other.isHerbivore && self.is_alive then
    let t := min 25 self.energy
    let other' := setEnergy other (other.energy + t)
    let self' := setEnergy self (self.energy - t)
    (self', other', true)
  else (self, other, false)

/-- `Herbivore.interact(other_organism)`: requires a living Plant target and a
living self; transfers `min(25, plant energy)` and bumps `_food_eaten`. -/
def herb_interact (self other : Organism) : Organism × Organism × Bool :=
  if other.isPlant && self.is_alive && other.is_alive then
    let t := min 25 other.energy
    let self' := (setEnergy self (self.energy + t)).bumpFood
    let other' := setEnergy other (other.energy - t)
    (self', other', true)
  else (self, other, false)

/-- `Carnivore.interact(other_organism)`: on a living Herbivore target with
living self, succeeds when the draw is `<= hunting_efficiency`. -/
def carn_interact (self other : Organism) (draw : ℚ) : Organism × Organism × Bool :=
  if other.isHerbivore && self.is_alive && other.is_alive then
    if draw ≤ self.hunting_efficiency then
      let t := min 40 other.energy
      let self' := (setEnergy self (self.energy + t)).bumpFood
      let other' := setEnergy other 0
      (self', other', true)
    else (self, other, false)
  else (self, other, false)

/-- Dynamic dispatch of `interact` on the receiver's class; the base
`Organism.interact` (also inherited by plain `Animal`) does nothing and
returns `False`. -/
def interact (self other : Organism) (draw : ℚ) : Organism × Organism × Bool :=
  match self.odata with
  | .plant _ => plant_interact self other
  | .herbivore _ _ => herb_interact self other
  | .carnivore _ _ => carn_interact self other draw
  | _ => (self, other, false)

/-- Oracle model of Python's global `random` module: a stream of uniform
draws in `[0,1)` (`random.random()`) and a stream of pick numbers
(`random.choice`), each with a cursor. -/
structure RNG where
  floats : ℕ → ℚ
  picks : ℕ → ℕ
  fIdx : ℕ
  pIdx : ℕ

/-- `random.random()`. -/
def RNG.nextFloat (r : RNG) : ℚ × RNG :=
  (r.floats r.fIdx, { r with fIdx := r.fIdx + 1 })

/-- The pick number feeding the next `random.choice`. -/
def RNG.nextPick (r : RNG) : ℕ × RNG :=
  (r.picks r.pIdx, { r with pIdx := r.pIdx + 1 })

/-- Indices of the elements of `l` satisfying `p` (a Python list comprehension
over references, modelled positionally). -/
def idxWhere (l : List Organism) (p : Organism → Bool) : List ℕ :=
  (List.range l.length).filter (fun i => p (l.getD i default))

/-- `random.choice(l)` given the pick number `pk`: the element at `pk % l.length`. -/
def chooseIdx (l : List ℕ) (pk : ℕ) : ℕ := l.getD (pk % l.length) 0

/-- `Herbivore.hunt(prey_organisms)`: forage among living Plant candidates,
preferring those whose species name matches `plant_preference`
case-insensitively; consume `min(target.energy, 25)`.
Returns (new self, new prey list, result, new RNG). -/
def herb_hunt (self : Organism) (prey : List Organism) (rng : RNG) :
    Organism × List Organism × Bool × RNG :=
  if self.is_alive = false then (self, prey, false, rng)
  else
    let avail := idxWhere prey (fun o => o.isPlant && o.is_alive)
    if avail.isEmpty then (self, prey, false, rng)
    else
      let preferred := avail.filter (fun i =>
        (prey.getD i default).species_name.toLower ==
          self.plant_preference.toLower)
      let pr := rng.nextPick
      let ti := if preferred.isEmpty then chooseIdx avail pr.1
                else chooseIdx preferred pr.1
      let target := prey.getD ti default
      let gain := min target.energy 25
      let self' := (setEnergy self (self.energy + gain)).bumpFood
      let prey' := prey.set ti (setEnergy target (target.energy - gain))
      (self', prey', true, pr.2)

/-- `Carnivore.hunt(prey_organisms)`: chase a living Herbivore candidate;
success when the draw is `<= hunting_efficiency * (speed / (target.speed + 1))`;
on success gain `min(target.energy * 0.7, 50)` and zero the target's energy;
on failure `consume_energy(5)`. -/
def carn_hunt (self : Organism) (prey : List Organism) (rng : RNG) :
    Organism × List Organism × Bool × RNG :=
  if self.is_alive = false then (self, prey, false, rng)
  else
    let avail := idxWhere prey (fun o => o.isHerbivore && o.is_alive)
    if avail.isEmpty then (self, prey, false, rng)
    else
      let pr := rng.nextPick
      let ti := chooseIdx avail pr.1
      let target := prey.getD ti default
      let chance := self.hunting_efficiency * (self.speed / (target.speed + 1))
      let dr := pr.2.nextFloat
      if dr.1 ≤ chance then
        let gain := min (target.energy * (7/10)) 50
        let self' := (setEnergy self (self.energy + gain)).bumpFood
        let prey' := prey.set ti (setEnergy target 0)
        (self', prey', true, dr.2)
      else
        ((consume_energy self 5).1, prey, false, dr.2)

/-- Dynamic dispatch of `hunt`. The base `Animal.hunt` body is `pass`, which
returns Python `None`, modelled as `Option.none`; the overrides return a
boolean, modelled as `some b`. Non-animals have no `hunt` attribute and are
mapped to a no-op returning `none`. -/
def hunt (self : Organism) (prey : List Organism) (rng : RNG) :
    Organism × List Organism × Option Bool × RNG :=
  match self.odata with
  | .herbivore _ _ =>
      let r := herb_hunt self prey rng
      (r.1, r.2.1, some r.2.2.1, r.2.2.2)
  | .carnivore _ _ =>
      let r := carn_hunt self prey rng
      (r.1, r.2.1, some r.2.2.1, r.2.2.2)
  | _ => (self, prey, none, rng)

/-- The `Environment` class (`__name`, `__weather_condition`, `__organisms`,
`__day_count`, `__next_id`). -/
structure Environment where
  name : String
  weather_condition : String
  organisms : List Organism
  day_count : ℕ
  next_id : ℕ
deriving Repr

/-- `Environment.__init__(name, weather_condition)`. -/
def Environment.mkNew (name w : String) : Environment := ⟨name, w, [], 0, 1⟩

/-- `Environment.add_organism(organism)`: rejected when an organism with the
same id is already present; otherwise appended. -/
def Environment.add_organism (env : Environment) (o : Organism) :
    Environment × Bool :=
  if env.organisms.any (fun org => org.id == o.id) then (env, false)
  else ({ env with organisms := env.organisms ++ [o] }, true)

/-- `Environment.get_population_count()`: living Plant / Herbivore / Carnivore
counts. -/
def Environment.get_population_count (env : Environment) : ℕ × ℕ × ℕ :=
  ((env.organisms.filter (fun o => o.isPlant && o.is_alive)).length,
   (env.organisms.filter (fun o => o.isHerbivore && o.is_alive)).length,
   (env.organisms.filter (fun o => o.isCarnivore && o.is_alive)).length)

/-- Update the organism at index `i` (a heap write through a reference);
out-of-range indices leave the list unchanged. -/
def updAt (orgs : List Organism) (i : ℕ) (f : Organism → Organism) :
    List Organism :=
  orgs.set i (f (orgs.getD i default))

/-- Write the (possibly updated) gathered candidate values back to their heap
positions. -/
def writeBack (orgs : List Organism) : List ℕ → List Organism → List Organism
  | i :: is', v :: vs => writeBack (orgs.set i v) is' vs
  | _, _ => orgs

/-- One polymorphic `hunt` call on the organism at heap index `i` with the
candidate list given by heap indices `cands`: gather the candidates, run the
method, scatter the updated candidates and the updated self back. -/
def applyHunt (orgs : List Organism) (i : ℕ) (cands : List ℕ) (rng : RNG) :
    List Organism × RNG :=
  let self := orgs.getD i default
  let preyList := cands.map (fun j => orgs.getD j default)
  let r := hunt self preyList rng
  (updAt (writeBack orgs cands r.2.1) i (fun _ => r.1), r.2.2.2)

/-- A hunting phase of `simulate_day`: each hunter in `hunters` (by heap
index), when alive at its turn, hunts the shared candidate list `cands`. -/
def huntLoop (cands : List ℕ) :
    List Organism → RNG → List ℕ → List Organism × RNG
  | orgs, rng, [] => (orgs, rng)
  | orgs, rng, i :: rest =>
      if (orgs.getD i default).is_alive then
        let p := applyHunt orgs i cands rng
        huntLoop cands p.1 p.2 rest
      else huntLoop cands orgs rng rest

def weather_options : List String := ["sunny", "cloudy", "rainy"]

/-- `Environment.simulate_day()`: increment the day counter; with probability
0.3 resample the weather; living plants photosynthesize; carnivores hunt the
herbivore snapshot; surviving herbivores forage the plant snapshot; every
living organism pays its daily energy cost. Returns the updated environment,
the returned day counter and the advanced random oracle. -/
def Environment.simulate_day (env : Environment) (rng : RNG) :
    Environment × ℕ × RNG :=
  let day := env.day_count + 1
  let wr := rng.nextFloat
  let wres :=
    if wr.1 < 3/10 then
      let pk := wr.2.nextPick
      (weather_options.getD (pk.1 % weather_options.length) "", pk.2)
    else (env.weather_condition, wr.2)
  let weather := wres.1
  let orgs1 := env.organisms.map (fun o =>
    if o.isPlant && o.is_alive then (photosynthesize o weather).1 else o)
  let carnIdxs := idxWhere orgs1 Organism.isCarnivore
  let herbIdxs := idxWhere orgs1 Organism.isHerbivore
  let cres := huntLoop herbIdxs orgs1 wres.2 carnIdxs
  let liveHerbIdxs := herbIdxs.filter (fun i => (cres.1.getD i default).is_alive)
  let plantIdxs := idxWhere cres.1 Organism.isPlant
  let hres := huntLoop plantIdxs cres.1 cres.2 liveHerbIdxs
  let orgs4 := hres.1.map (fun o =>
    if o.is_alive then
      if o.isPlant then (consume_energy o 1).1
      else if o.isAnimalKind then (consume_energy o (2 + o.speed * (1/10))).1
      else o
    else o)
  ({ env with weather_condition := weather, organisms := orgs4,
              day_count := day },
   day, hres.2)

/-- Iterated `simulate_day`, threading the random oracle. -/
def simulate_days (env : Environment) (rng : RNG) : ℕ → Environment × RNG
  | 0 => (env, rng)
  | n + 1 =>
      let r := env.simulate_day rng
      simulate_days r.1 r.2.2 n

/-- The public mutating operations named by the specification, acting on the
environment's organisms by heap index. -/
inductive Op where
  | assign (i : ℕ) (v : ℚ)
  | consume (i : ℕ) (amt : ℚ)
  | photo (i : ℕ) (w : String)
  | huntOp (i : ℕ) (cands : List ℕ) (rng : RNG)
  | interactOp (i j : ℕ) (draw : ℚ)
  | simDay (rng : RNG)

/-- Apply one public operation to an environment. -/
def applyOp (env : Environment) : Op → Environment
  | .assign i v =>
      { env with organisms := updAt env.organisms i (fun o => setEnergy o v) }
  | .consume i amt =>
      let orgs := updAt env.organisms i (fun o => (consume_energy o amt).1)
      { env with organisms := orgs }
  | .photo i w =>
      let orgs := updAt env.organisms i (fun o =>
        if o.isPlant then (photosynthesize o w).1 else o)
      { env with organisms := orgs }
  | .huntOp i cands rng =>
      { env with organisms := (applyHunt env.organisms i cands rng).1 }
  | .interactOp i j draw =>
      let self := env.organisms.getD i default
      let other := env.organisms.getD j default
      let r := interact self other draw
      let orgs := updAt (updAt env.organisms j (fun _ => r.2.1)) i (fun _ => r.1)
      { env with organisms := orgs }
  | .simDay rng => (env.simulate_day rng).1

/-- Apply a sequence of public operations. -/
def applyOps (env : Environment) : List Op → Environment
  | [] => env
  | op :: rest => applyOps (applyOp env op) rest

/-- The organism stored at heap index `i` is dead (out-of-range indices hold
the dead default). -/
def deadAt (orgs : List Organism) (i : ℕ) : Prop :=
  (orgs.getD i default).is_alive = false

/-- Every index dead in `a` is still dead in `b`. -/
def deadLE (a b : List Organism) : Prop :=
  ∀ i, deadAt a i → deadAt b i

/-- `f` never revives a dead organism. -/
def deadPres (f : Organism → Organism) : Prop :=
  ∀ o : Organism, o.is_alive = false → (f o).is_alive = false

/-- Sample wolf from the source's `main()` setup, used by concrete witnesses. -/
def wolfW : Organism := ⟨"C001", "Wolf", 80, true, .carnivore ⟨5, "carnivore", 0⟩ (7/10)⟩

/-- Sample rabbit from the source's `main()` setup. -/
def rabbitW : Organism := ⟨"H001", "Rabbit", 70, true, .herbivore ⟨3, "herbivore", 0⟩ "grass"⟩

/-- Sample grass plant from the source's `main()` setup. -/
def grassW : Organism := ⟨"P003", "Grass", 50, true, .plant (3/10)⟩

/-- Sample oak tree from the source's `main()` setup. -/
def oakW : Organism := ⟨"P001", "Oak Tree", 100, true, .plant (1/5)⟩

/-- A concrete random oracle: every draw is 1/2 and every pick number 0. -/
def rngW : RNG := ⟨fun _ => 1/2, fun _ => 0, 0, 0⟩

theorem setEnergy_odata (o : Organism) (v : ℚ) : (setEnergy o v).odata = o.odata := rfl

theorem setEnergy_energy (o : Organism) (v : ℚ) :
    (setEnergy o v).energy = max 0 v := rfl

theorem setEnergy_energy_of_nonneg (o : Organism) (v : ℚ) (h : 0 ≤ v) :
    (setEnergy o v).energy = v := by
  rw [setEnergy_energy, max_eq_right h]

theorem setEnergy_dead (o : Organism) (v : ℚ) (h : o.is_alive = false) :
    (setEnergy o v).is_alive = false := by
  simp only [setEnergy]
  split <;> simp [h]

theorem bumpFood_is_alive (o : Organism) : o.bumpFood.is_alive = o.is_alive := rfl

theorem bumpFood_energy (o : Organism) : o.bumpFood.energy = o.energy := rfl

theorem setEnergy_food_eaten (o : Organism) (v : ℚ) :
    (setEnergy o v).food_eaten = o.food_eaten := rfl

theorem weather_factor_nonneg (w : String) : 0 ≤ weather_factor w := by
  unfold weather_factor
  split_ifs <;> norm_num

theorem consume_energy_fst (o : Organism) (amt : ℚ) :
    (consume_energy o amt).1 = setEnergy o (o.energy - amt) := rfl

/-- C3: `photosynthesize(w)` adds exactly `10 * growth_rate * weather_factor w`
to the plant's energy and returns that yield, with the factor table
sunny ↦ 1, cloudy ↦ 0.6, rainy ↦ 0.3 and 0.5 otherwise; a plant with growth
rate 0.2 yields exactly 2 on sunny weather, and for a fixed positive growth
rate the yields are ordered sunny > cloudy > rainy. -/
theorem photosynthesize_spec (o : Organism) (w : String)
    (he : 0 ≤ o.energy) (hg : 0 ≤ o.growth_rate) :
    (photosynthesize o w).2 = 10 * o.growth_rate * weather_factor w ∧
    (photosynthesize o w).1.energy =
      o.energy + 10 * o.growth_rate * weather_factor w ∧
    weather_factor "sunny" = 1 ∧ weather_factor "cloudy" = 6/10 ∧
    weather_factor "rainy" = 3/10 ∧
    (∀ w', w' ≠ "sunny" → w' ≠ "cloudy" → w' ≠ "rainy" →
      weather_factor w' = 1/2) ∧
    (o.growth_rate = 1/5 → (photosynthesize o "sunny").2 = 2) ∧
    (0 < o.growth_rate →
      (photosynthesize o "rainy").2 < (photosynthesize o "cloudy").2 ∧
      (photosynthesize o "cloudy").2 < (photosynthesize o "sunny").2) := by
  have hgain : ∀ w'', (0:ℚ) ≤ 10 * o.growth_rate * weather_factor w'' := by
    intro w''
    exact mul_nonneg (mul_nonneg (by norm_num) hg) (weather_factor_nonneg w'')
  refine ⟨rfl, ?_, rfl, rfl, rfl, ?_, ?_, ?_⟩
  · show (setEnergy o (o.energy + 10 * o.growth_rate * weather_factor w)).energy = _
    exact setEnergy_energy_of_nonneg _ _ (add_nonneg he (hgain w))
  · intro w' h1 h2 h3
    simp [weather_factor, h1, h2, h3]
  · intro hgr
    show 10 * o.growth_rate * weather_factor "sunny" = 2
    rw [hgr]
    norm_num [weather_factor]
  · intro hpos
    show 10 * o.growth_rate * weather_factor "rainy" <
        10 * o.growth_rate * weather_factor "cloudy" ∧
      10 * o.growth_rate * weather_factor "cloudy" <
        10 * o.growth_rate * weather_factor "sunny"
    rw [show weather_factor "rainy" = 3/10 from rfl,
        show weather_factor "cloudy" = 6/10 from rfl,
        show weather_factor "sunny" = 1 from rfl]
    constructor <;> nlinarith

/-- Witness for C3: a sunny-weather photosynthesis on an Oak Tree with growth
rate 0.2 and energy 100 yields exactly 2, evaluated concretely. -/
theorem photosynthesize_spec_witness :
    (0:ℚ) ≤ 100 ∧ (0:ℚ) ≤ 1/5 ∧
    (photosynthesize ⟨"P001", "Oak Tree", 100, true, .plant (1/5)⟩ "sunny").2 =
      10 * (1/5) * weather_factor "sunny" := by
  refine ⟨by norm_num, by norm_num, ?_⟩
  exact (photosynthesize_spec ⟨"P001", "Oak Tree", 100, true, .plant (1/5)⟩
    "sunny" (by norm_num) (by norm_num [Organism.growth_rate])).1

/-- C4: the energy setter clamps at zero, so energy is never negative after a
mutation; assigning a value `≤ 0` stores exactly 0 and marks the organism
dead; `consume_energy` also never leaves negative energy; in particular the
organism ("P1", "Test", 50, alive) assigned energy −10 ends with energy 0 and
`is_alive = false`. -/
theorem energy_never_negative (o : Organism) (v amt : ℚ) :
    0 ≤ (setEnergy o v).energy ∧
    (v ≤ 0 → (setEnergy o v).energy = 0 ∧ (setEnergy o v).is_alive = false) ∧
    0 ≤ ((consume_energy o amt).1).energy ∧
    (setEnergy ⟨"P1", "Test", 50, true, .base⟩ (-10)).energy = 0 ∧
    (setEnergy ⟨"P1", "Test", 50, true, .base⟩ (-10)).is_alive = false := by
  refine ⟨le_max_left 0 v, ?_, le_max_left _ _, ?_, ?_⟩
  · intro hv
    have hm : max 0 v = 0 := max_eq_left hv
    constructor
    · rw [setEnergy_energy, hm]
    · simp only [setEnergy, hm]
      norm_num
  · norm_num [setEnergy]
  · norm_num [setEnergy]

/-- Witness for C4: the clamp hypothesis discharged at `v = -10`. -/
theorem energy_never_negative_witness :
    (-10 : ℚ) ≤ 0 ∧
    (setEnergy ⟨"P1", "Test", 50, true, .base⟩ (-10)).energy = 0 ∧
    (setEnergy ⟨"P1", "Test", 50, true, .base⟩ (-10)).is_alive = false :=
  ⟨by norm_num,
   (energy_never_negative ⟨"P1", "Test", 50, true, .base⟩ (-10) 0).2.1 (by norm_num)⟩

/-- C10: `Organism.__init__` raises the invalid-input error iff the id
argument is not a non-empty string; for a valid id every species, energy and
alive flag combination is stored exactly as given, with no further
validation. -/
theorem organism_constructor_spec (idArg : PyVal) (species : String) (e : ℚ)
    (al : Bool) (d : OrgData) :
    ((∃ o, Organism.mkChecked idArg species e al d = Except.ok o) ↔
      (∃ s, idArg = PyVal.str s ∧ s ≠ "")) ∧
    (∀ s, idArg = PyVal.str s → s ≠ "" →
      Organism.mkChecked idArg species e al d =
        Except.ok ⟨s, species, e, al, d⟩) := by
  constructor
  · cases idArg with
    | str s =>
        by_cases hs : s = "" <;>
          simp [Organism.mkChecked, hs]
    | nonstr => simp [Organism.mkChecked]
  · intro s hs hne
    subst hs
    simp [Organism.mkChecked, hne]

/-- Witness for C10: an organism with negative energy, and another that is
alive with zero energy, are both constructed successfully. -/
theorem organism_constructor_spec_witness :
    PyVal.str "P1" = PyVal.str "P1" ∧ "P1" ≠ "" ∧
    Organism.mkChecked (PyVal.str "P1") "Test" (-5) true .base =
      Except.ok ⟨"P1", "Test", -5, true, .base⟩ ∧
    Organism.mkChecked (PyVal.str "P2") "Test" 0 true .base =
      Except.ok ⟨"P2", "Test", 0, true, .base⟩ :=
  ⟨rfl, by decide,
   (organism_constructor_spec (PyVal.str "P1") "Test" (-5) true .base).2
     "P1" rfl (by decide),
   (organism_constructor_spec (PyVal.str "P2") "Test" 0 true .base).2
     "P2" rfl (by decide)⟩

theorem simulate_day_snd (env : Environment) (rng : RNG) :
    (env.simulate_day rng).2.1 = env.day_count + 1 := rfl

theorem simulate_day_fst_day (env : Environment) (rng : RNG) :
    (env.simulate_day rng).1.day_count = env.day_count + 1 := rfl

theorem simulate_days_day_count (n : ℕ) :
    ∀ (env : Environment) (rng : RNG),
      (simulate_days env rng n).1.day_count = env.day_count + n := by
  induction n with
  | zero => intro env rng; rfl
  | succ m ih =>
      intro env rng
      show (simulate_days (env.simulate_day rng).1
        (env.simulate_day rng).2.2 m).1.day_count = _
      rw [ih, simulate_day_fst_day]
      omega

/-- C6: each `simulate_day` call increments the day counter by exactly 1 and
returns the updated counter, for any environment (including an empty one) and
any random oracle; iterating from day 0 gives counter `n` after `n` calls. -/
theorem simulate_day_monotonic (env : Environment) (rng : RNG) :
    (env.simulate_day rng).2.1 = env.day_count + 1 ∧
    (env.simulate_day rng).1.day_count = env.day_count + 1 ∧
    (∀ (n : ℕ) (rng' : RNG), env.day_count = 0 →
      (simulate_days env rng' n).1.day_count = n) := by
  refine ⟨simulate_day_snd env rng, simulate_day_fst_day env rng, ?_⟩
  intro n rng' h0
  rw [simulate_days_day_count n env rng', h0, Nat.zero_add]

/-- Witness for C6: three days simulated on an empty freshly built
environment give day counter 3. -/
theorem simulate_day_monotonic_witness :
    (Environment.mkNew "Forest" "sunny").day_count = 0 ∧
    (simulate_days (Environment.mkNew "Forest" "sunny")
      ⟨fun _ => 0, fun _ => 0, 0, 0⟩ 3).1.day_count = 3 :=
  ⟨rfl,
   (simulate_day_monotonic (Environment.mkNew "Forest" "sunny")
      ⟨fun _ => 0, fun _ => 0, 0, 0⟩).2.2 3 ⟨fun _ => 0, fun _ => 0, 0, 0⟩ rfl⟩

/-- C7: `add_organism` rejects a duplicate identifier and leaves the
collection unchanged, appends otherwise, and a second insertion with the same
identifier always leaves the collection, its size and the population counts
unchanged. -/
theorem add_organism_spec (env : Environment) (o o2 : Organism) :
    ((∃ org ∈ env.organisms, org.id = o.id) → env.add_organism o = (env, false)) ∧
    ((∀ org ∈ env.organisms, org.id ≠ o.id) →
      env.add_organism o =
        ({ env with organisms := env.organisms ++ [o] }, true)) ∧
    (o2.id = o.id →
      ((env.add_organism o).1.add_organism o2).1 = (env.add_organism o).1 ∧
      ((env.add_organism o).1.add_organism o2).2 = false ∧
      ((env.add_organism o).1.add_organism o2).1.organisms.length =
        (env.add_organism o).1.organisms.length ∧
      ((env.add_organism o).1.add_organism o2).1.get_population_count =
        (env.add_organism o).1.get_population_count) := by
  have reject : ∀ (e : Environment) (x : Organism),
      e.organisms.any (fun org => org.id == x.id) = true →
      e.add_organism x = (e, false) := by
    intro e x h
    unfold Environment.add_organism
    rw [if_pos h]
  refine ⟨?_, ?_, ?_⟩
  · intro ⟨org, hmem, hid⟩
    refine reject env o ?_
    rw [List.any_eq_true]
    exact ⟨org, hmem, by simp [hid]⟩
  · intro h
    have hf : ¬ (env.organisms.any (fun org => org.id == o.id) = true) := by
      rw [List.any_eq_true]
      rintro ⟨org, hmem, hbeq⟩
      exact h org hmem (by simpa using hbeq)
    unfold Environment.add_organism
    rw [if_neg hf]
  · intro hid
    have hany : (env.add_organism o).1.organisms.any
        (fun org => org.id == o2.id) = true := by
      rw [List.any_eq_true]
      unfold Environment.add_organism
      split
      · next hdup =>
          rw [List.any_eq_true] at hdup
          obtain ⟨org, hmem, hbeq⟩ := hdup
          refine ⟨org, hmem, ?_⟩
          rw [beq_iff_eq] at hbeq ⊢
          rw [hbeq, hid]
      · exact ⟨o, by simp, by simp [hid]⟩
    rw [reject (env.add_organism o).1 o2 hany]
    exact ⟨rfl, rfl, rfl, rfl⟩

/-- Witness for C7: adding a second organism with id "P001" to an environment
that already holds a plant "P001" is rejected and changes nothing. -/
theorem add_organism_spec_witness :
    ("P001" : String) = "P001" ∧
    (((Environment.mkNew "F" "sunny").add_organism
        ⟨"P001", "Oak Tree", 100, true, .plant (1/5)⟩).1.add_organism
        ⟨"P001", "Grass", 50, true, .plant (3/10)⟩).2 = false :=
  ⟨rfl,
   ((add_organism_spec (Environment.mkNew "F" "sunny")
      ⟨"P001", "Oak Tree", 100, true, .plant (1/5)⟩
      ⟨"P001", "Grass", 50, true, .plant (3/10)⟩).2.2 rfl).2.1⟩

/-- Counterexample to C8 as stated: a living Grass plant (energy 30)
interacting with a DEAD Rabbit herbivore still transfers 25 energy and
returns success — the source checks only `isinstance(other, Herbivore)` and
`self._is_alive`, never the target's liveness. -/
theorem plant_interact_dead_target_cex :
    (⟨"H1", "Rabbit", 0, false, .herbivore ⟨3, "herbivore", 0⟩ "grass"⟩ :
        Organism).is_alive = false ∧
    (plant_interact ⟨"P1", "Grass", 30, true, .plant (3/10)⟩
        ⟨"H1", "Rabbit", 0, false, .herbivore ⟨3, "herbivore", 0⟩ "grass"⟩).2.2
      = true ∧
    (plant_interact ⟨"P1", "Grass", 30, true, .plant (3/10)⟩
        ⟨"H1", "Rabbit", 0, false, .herbivore ⟨3, "herbivore", 0⟩ "grass"⟩).2.1.energy
      = 25 ∧
    (plant_interact ⟨"P1", "Grass", 30, true, .plant (3/10)⟩
        ⟨"H1", "Rabbit", 0, false, .herbivore ⟨3, "herbivore", 0⟩ "grass"⟩).1.energy
      = 5 := by
  refine ⟨rfl, rfl, ?_, ?_⟩ <;>
    norm_num [plant_interact, Organism.isHerbivore, setEnergy, min_def, max_def]

/-- C8 (amended): `Plant.interact(t)` transfers `min(25, plant energy)` from
the plant to `t` and returns success whenever `t` is a Herbivore — alive or
dead — and the plant is alive (a dead Herbivore target is not revived by the
transfer); when `t` is not a Herbivore or the plant is dead, nothing changes
and failure is returned; `interact` dispatches a Plant receiver to this
method. -/
theorem plant_interact_amended (p t : Organism)
    (hp : 0 ≤ p.energy) (ht : 0 ≤ t.energy) :
    (t.isHerbivore = true → p.is_alive = true →
      (plant_interact p t).2.2 = true ∧
      (plant_interact p t).1.energy = p.energy - min 25 p.energy ∧
      (plant_interact p t).2.1.energy = t.energy + min 25 p.energy ∧
      (t.is_alive = false → (plant_interact p t).2.1.is_alive = false)) ∧
    (t.isHerbivore = false ∨ p.is_alive = false →
      plant_interact p t = (p, t, false)) ∧
    (∀ g, p.odata = OrgData.plant g → ∀ d, interact p t d = plant_interact p t) := by
  refine ⟨?_, ?_, ?_⟩
  · intro hh ha
    have hcond : (t.isHerbivore && p.is_alive) = true := by rw [hh, ha]; rfl
    have htr0 : 0 ≤ min 25 p.energy := le_min (by norm_num) hp
    unfold plant_interact
    rw [if_pos hcond]
    refine ⟨rfl, ?_, ?_, ?_⟩
    · exact setEnergy_energy_of_nonneg _ _ (by
        have := min_le_right 25 p.energy
        linarith)
    · exact setEnergy_energy_of_nonneg _ _ (add_nonneg ht htr0)
    · intro hdead
      exact setEnergy_dead _ _ hdead
  · intro h
    have hcond : (t.isHerbivore && p.is_alive) = false := by
      rcases h with h | h <;> simp [h]
    unfold plant_interact
    rw [if_neg (by simp [hcond])]
  · intro g hg d
    unfold interact
    rw [hg]

/-- Witness for C8 (amended): a living Grass plant feeds a living Rabbit,
moving exactly 25 of its 30 energy. -/
theorem plant_interact_amended_witness :
    (0:ℚ) ≤ 30 ∧ (0:ℚ) ≤ 70 ∧
    (plant_interact ⟨"P1", "Grass", 30, true, .plant (3/10)⟩
        ⟨"H1", "Rabbit", 70, true, .herbivore ⟨3, "herbivore", 0⟩ "grass"⟩).2.2
      = true :=
  ⟨by norm_num, by norm_num,
   ((plant_interact_amended ⟨"P1", "Grass", 30, true, .plant (3/10)⟩
      ⟨"H1", "Rabbit", 70, true, .herbivore ⟨3, "herbivore", 0⟩ "grass"⟩
      (by norm_num) (by norm_num)).1 rfl rfl).1⟩

/-- Counterexample to C9 as stated: the base `Animal.hunt` body is `pass`,
so it returns Python `None` (modelled `Option.none`), not the boolean
`False`: its result differs from `some false`. -/
theorem animal_base_hunt_cex :
    (hunt ⟨"A1", "Animal", 50, true, .animal ⟨2, "omnivore", 0⟩⟩
        [⟨"P1", "Grass", 30, true, .plant (3/10)⟩]
        ⟨fun _ => 0, fun _ => 0, 0, 0⟩).2.2.1 = none ∧
    (hunt ⟨"A1", "Animal", 50, true, .animal ⟨2, "omnivore", 0⟩⟩
        [⟨"P1", "Grass", 30, true, .plant (3/10)⟩]
        ⟨fun _ => 0, fun _ => 0, 0, 0⟩).2.2.1 ≠ some false :=
  ⟨rfl, fun h => Option.noConfusion h⟩

/-- C9 (amended): on a plain `Animal` (neither Herbivore nor Carnivore) the
base `hunt` changes no organism at all — self, candidates, energies, alive
flags and feeding counters are untouched — and returns Python `None` (a
falsy non-boolean treated as failure), not the boolean `False`. -/
theorem animal_base_hunt_amended (self : Organism) (a : AnimalData)
    (prey : List Organism) (rng : RNG)
    (h : self.odata = OrgData.animal a) :
    hunt self prey rng = (self, prey, none, rng) ∧
    (none : Option Bool) ≠ some false := by
  constructor
  · unfold hunt
    rw [h]
  · simp

/-- Witness for C9 (amended): the base hunt on a concrete plain Animal with a
living plant candidate returns everything unchanged and `none`. -/
theorem animal_base_hunt_amended_witness :
    (⟨"A1", "Animal", 50, true, .animal ⟨2, "omnivore", 0⟩⟩ :
        Organism).odata = OrgData.animal ⟨2, "omnivore", 0⟩ ∧
    (hunt ⟨"A1", "Animal", 50, true, .animal ⟨2, "omnivore", 0⟩⟩
        [⟨"P1", "Grass", 30, true, .plant (3/10)⟩]
        ⟨fun _ => 0, fun _ => 0, 0, 0⟩) =
      (⟨"A1", "Animal", 50, true, .animal ⟨2, "omnivore", 0⟩⟩,
       [⟨"P1", "Grass", 30, true, .plant (3/10)⟩],
       none, ⟨fun _ => 0, fun _ => 0, 0, 0⟩) :=
  ⟨rfl,
   (animal_base_hunt_amended ⟨"A1", "Animal", 50, true, .animal ⟨2, "omnivore", 0⟩⟩
      ⟨2, "omnivore", 0⟩ [⟨"P1", "Grass", 30, true, .plant (3/10)⟩]
      ⟨fun _ => 0, fun _ => 0, 0, 0⟩ rfl).1⟩

theorem idxWhere_lt (l : List Organism) (p : Organism → Bool) (i : ℕ)
    (h : i ∈ idxWhere l p) : i < l.length := by
  unfold idxWhere at h
  exact List.mem_range.mp (List.mem_filter.mp h).1

theorem idxWhere_prop (l : List Organism) (p : Organism → Bool) (i : ℕ)
    (h : i ∈ idxWhere l p) : p (l.getD i default) = true := by
  unfold idxWhere at h
  exact (List.mem_filter.mp h).2

theorem chooseIdx_mem (l : List ℕ) (pk : ℕ) (h : l ≠ []) : chooseIdx l pk ∈ l := by
  unfold chooseIdx
  have hlen : 0 < l.length := List.length_pos.mpr h
  have hlt : pk % l.length < l.length := Nat.mod_lt pk hlen
  rw [List.getD_eq_getElem?_getD, List.getElem?_eq_getElem hlt]
  exact List.getElem_mem hlt

theorem isAnimalKind_setEnergy (o : Organism) (v : ℚ) :
    (setEnergy o v).isAnimalKind = o.isAnimalKind := rfl

theorem bumpFood_food_eaten (o : Organism) (h : o.isAnimalKind = true) :
    o.bumpFood.food_eaten = o.food_eaten + 1 := by
  obtain ⟨i, s, e, al, od⟩ := o
  cases od <;>
    simp_all [Organism.bumpFood, Organism.food_eaten, Organism.isAnimalKind]

/-- A live carnivore hunt with at least one living herbivore candidate and a
winning draw. -/
theorem carn_hunt_succ (self : Organism) (prey : List Organism) (rng : RNG)
    (ti : ℕ) (target : Organism)
    (h1 : self.is_alive = true)
    (h2 : idxWhere prey (fun o => o.isHerbivore && o.is_alive) ≠ [])
    (hti : ti = chooseIdx (idxWhere prey (fun o => o.isHerbivore && o.is_alive))
      (rng.picks rng.pIdx))
    (htarget : target = prey.getD ti default)
    (hdraw : rng.floats rng.fIdx ≤
      self.hunting_efficiency * (self.speed / (target.speed + 1))) :
    carn_hunt self prey rng =
      ((setEnergy self (self.energy + min (target.energy * (7/10)) 50)).bumpFood,
       prey.set ti (setEnergy target 0), true,
       (⟨rng.floats, rng.picks, rng.fIdx + 1, rng.pIdx + 1⟩ : RNG)) := by
  subst hti
  subst htarget
  unfold carn_hunt
  rw [if_neg (by simp [h1]), if_neg (by simp [List.isEmpty_iff, h2])]
  simp only [RNG.nextPick, RNG.nextFloat]
  rw [if_pos hdraw]

/-- A live carnivore hunt with at least one living herbivore candidate and a
losing draw. -/
theorem carn_hunt_fail (self : Organism) (prey : List Organism) (rng : RNG)
    (ti : ℕ) (target : Organism)
    (h1 : self.is_alive = true)
    (h2 : idxWhere prey (fun o => o.isHerbivore && o.is_alive) ≠ [])
    (hti : ti = chooseIdx (idxWhere prey (fun o => o.isHerbivore && o.is_alive))
      (rng.picks rng.pIdx))
    (htarget : target = prey.getD ti default)
    (hdraw : ¬ rng.floats rng.fIdx ≤
      self.hunting_efficiency * (self.speed / (target.speed + 1))) :
    carn_hunt self prey rng =
      ((consume_energy self 5).1, prey, false,
       (⟨rng.floats, rng.picks, rng.fIdx + 1, rng.pIdx + 1⟩ : RNG)) := by
  subst hti
  subst htarget
  unfold carn_hunt
  rw [if_neg (by simp [h1]), if_neg (by simp [List.isEmpty_iff, h2])]
  simp only [RNG.nextPick, RNG.nextFloat]
  rw [if_neg hdraw]

/-- C1: `Carnivore.hunt(candidates)` fails when the carnivore is dead or no
living Herbivore is among the candidates; otherwise it targets the living
herbivore candidate selected by the random-choice oracle; for a random draw
`r`: if `r ≤ hunting_efficiency * (speed / (target.speed + 1))` it gains
exactly `min(0.7 * target energy, 50)`, zeroes the target's energy (killing
it), increments its feeding counter and returns success; otherwise it
consumes 5 energy (clamped at 0) and returns failure, leaving the candidates
untouched. -/
theorem carnivore_hunt_spec (self : Organism) (a : AnimalData) (eff : ℚ)
    (prey : List Organism) (rng : RNG)
    (hc : self.odata = OrgData.carnivore a eff)
    (hse : 0 ≤ self.energy) :
    (self.is_alive = false → carn_hunt self prey rng = (self, prey, false, rng)) ∧
    (idxWhere prey (fun o => o.isHerbivore && o.is_alive) = [] →
      carn_hunt self prey rng = (self, prey, false, rng)) ∧
    (self.is_alive = true →
      ∀ avail, avail = idxWhere prey (fun o => o.isHerbivore && o.is_alive) →
      avail ≠ [] →
      ∀ ti, ti = chooseIdx avail (rng.picks rng.pIdx) →
      ∀ target, target = prey.getD ti default →
      target.isHerbivore = true ∧ target.is_alive = true ∧ ti ∈ avail ∧
      (0 ≤ target.energy →
        (rng.floats rng.fIdx ≤ eff * (self.speed / (target.speed + 1)) →
          (carn_hunt self prey rng).2.2.1 = true ∧
          (carn_hunt self prey rng).1.energy =
            self.energy + min (target.energy * (7/10)) 50 ∧
          (carn_hunt self prey rng).1.food_eaten = self.food_eaten + 1 ∧
          ((carn_hunt self prey rng).2.1.getD ti default).energy = 0 ∧
          ((carn_hunt self prey rng).2.1.getD ti default).is_alive = false ∧
          (∀ j, j ≠ ti →
            (carn_hunt self prey rng).2.1.getD j default = prey.getD j default)) ∧
        (¬ rng.floats rng.fIdx ≤ eff * (self.speed / (target.speed + 1)) →
          (carn_hunt self prey rng).2.2.1 = false ∧
          (carn_hunt self prey rng).1.energy = max 0 (self.energy - 5) ∧
          (carn_hunt self prey rng).1.food_eaten = self.food_eaten ∧
          (carn_hunt self prey rng).2.1 = prey))) := by
  have heff : self.hunting_efficiency = eff := by
    simp [Organism.hunting_efficiency, hc]
  refine ⟨?_, ?_, ?_⟩
  · intro hdead
    unfold carn_hunt
    rw [if_pos hdead]
  · intro hnone
    unfold carn_hunt
    split
    · rfl
    · rw [if_pos (by simp [List.isEmpty_iff, hnone])]
  · intro halive avail havail hne ti hti target htarget
    have hmem : ti ∈ avail := by
      rw [hti]
      exact chooseIdx_mem avail (rng.picks rng.pIdx) hne
    have hprop := idxWhere_prop prey _ ti (havail ▸ hmem)
    rw [← htarget] at hprop
    rw [Bool.and_eq_true] at hprop
    have hlt : ti < prey.length := idxWhere_lt prey _ ti (havail ▸ hmem)
    have hne' : idxWhere prey (fun o => o.isHerbivore && o.is_alive) ≠ [] :=
      havail ▸ hne
    have hti' : ti = chooseIdx
        (idxWhere prey (fun o => o.isHerbivore && o.is_alive))
        (rng.picks rng.pIdx) := by rw [hti, havail]
    refine ⟨hprop.1, hprop.2, hmem, ?_⟩
    intro hte
    have hanimal : self.isAnimalKind = true := by
      simp [Organism.isAnimalKind, hc]
    constructor
    · intro hdraw
      have hEq := carn_hunt_succ self prey rng ti target halive hne' hti'
        htarget (by rw [heff]; exact hdraw)
      rw [hEq]
      have hgain : (0:ℚ) ≤ min (target.energy * (7/10)) 50 :=
        le_min (mul_nonneg hte (by norm_num)) (by norm_num)
      refine ⟨rfl, ?_, ?_, ?_, ?_, ?_⟩
      · rw [bumpFood_energy, setEnergy_energy_of_nonneg _ _ (add_nonneg hse hgain)]
      · rw [bumpFood_food_eaten _ (by rw [isAnimalKind_setEnergy]; exact hanimal),
          setEnergy_food_eaten]
      · rw [List.getD_eq_getElem?_getD, List.getElem?_set_self (by simpa using hlt)]
        simp [setEnergy]
      · rw [List.getD_eq_getElem?_getD, List.getElem?_set_self (by simpa using hlt)]
        simp [setEnergy]
      · intro j hj
        rw [List.getD_eq_getElem?_getD, List.getElem?_set_ne (fun h => hj h.symm),
          ← List.getD_eq_getElem?_getD]
    · intro hdraw
      have hEq := carn_hunt_fail self prey rng ti target halive hne' hti'
        htarget (by rw [heff]; exact hdraw)
      rw [hEq]
      exact ⟨rfl, rfl, setEnergy_food_eaten _ _, rfl⟩

/-- Witness for C1: the spec scenario — a Wolf with efficiency 0.7 and speed
5 hunts a Rabbit of speed 3, draw 1/2 ≤ 0.7 × (5/4): the hunt succeeds. -/
theorem carnivore_hunt_spec_witness :
    wolfW.odata = OrgData.carnivore ⟨5, "carnivore", 0⟩ (7/10) ∧
    (carn_hunt wolfW [rabbitW] rngW).2.2.1 = true := by
  refine ⟨rfl, ?_⟩
  have h := carnivore_hunt_spec wolfW ⟨5, "carnivore", 0⟩ (7/10) [rabbitW] rngW
    rfl (by norm_num [wolfW])
  have hne : idxWhere [rabbitW] (fun o => o.isHerbivore && o.is_alive) ≠ [] := by
    decide
  have hmain := h.2.2 rfl
    (idxWhere [rabbitW] (fun o => o.isHerbivore && o.is_alive)) rfl hne
    (chooseIdx (idxWhere [rabbitW] (fun o => o.isHerbivore && o.is_alive))
      (rngW.picks rngW.pIdx)) rfl
    ([rabbitW].getD
      (chooseIdx (idxWhere [rabbitW] (fun o => o.isHerbivore && o.is_alive))
        (rngW.picks rngW.pIdx)) default) rfl
  refine ((hmain.2.2.2 ?_).1 ?_).1
  · show (0:ℚ) ≤ 70
    norm_num
  · show (1:ℚ)/2 ≤ 7/10 * (5 / (3 + 1))
    norm_num

/-- A live herbivore forage with at least one living plant candidate: the
target index is drawn from the case-insensitively preferred subset when it is
non-empty, else from all living plants. -/
theorem herb_hunt_eq (self : Organism) (prey : List Organism) (rng : RNG)
    (ti : ℕ) (target : Organism)
    (h1 : self.is_alive = true)
    (h2 : idxWhere prey (fun o => o.isPlant && o.is_alive) ≠ [])
    (hti : ti =
      (if ((idxWhere prey (fun o => o.isPlant && o.is_alive)).filter (fun i =>
            (prey.getD i default).species_name.toLower ==
              self.plant_preference.toLower)).isEmpty
       then chooseIdx (idxWhere prey (fun o => o.isPlant && o.is_alive))
         (rng.picks rng.pIdx)
       else chooseIdx ((idxWhere prey (fun o => o.isPlant && o.is_alive)).filter
         (fun i => (prey.getD i default).species_name.toLower ==
           self.plant_preference.toLower)) (rng.picks rng.pIdx)))
    (htarget : target = prey.getD ti default) :
    herb_hunt self prey rng =
      ((setEnergy self (self.energy + min target.energy 25)).bumpFood,
       prey.set ti (setEnergy target (target.energy - min target.energy 25)),
       true, (⟨rng.floats, rng.picks, rng.fIdx, rng.pIdx + 1⟩ : RNG)) := by
  subst hti
  subst htarget
  unfold herb_hunt
  rw [if_neg (by simp [h1]), if_neg (by simp [List.isEmpty_iff, h2])]
  simp only [RNG.nextPick]

/-- C2: `Herbivore.hunt(candidates)` fails when the herbivore is dead or no
living Plant is among the candidates; otherwise the chosen target is a living
plant candidate, taken from the subset whose species name case-insensitively
equals the stored plant preference when that subset is non-empty and from all
living plant candidates otherwise (as the pick oracle ranges over values,
every member of the relevant subset is chosen); `min(target energy, 25)` is
moved from the plant to the herbivore, the feeding counter is incremented,
and success is returned. -/
theorem herbivore_hunt_spec (self : Organism) (a : AnimalData) (pref : String)
    (prey : List Organism) (rng : RNG)
    (hh : self.odata = OrgData.herbivore a pref)
    (hse : 0 ≤ self.energy) :
    (self.is_alive = false → herb_hunt self prey rng = (self, prey, false, rng)) ∧
    (idxWhere prey (fun o => o.isPlant && o.is_alive) = [] →
      herb_hunt self prey rng = (self, prey, false, rng)) ∧
    (self.is_alive = true →
      ∀ avail, avail = idxWhere prey (fun o => o.isPlant && o.is_alive) →
      avail ≠ [] →
      ∀ preferred, preferred = avail.filter (fun i =>
        (prey.getD i default).species_name.toLower == pref.toLower) →
      ∀ ti, ti = (if preferred.isEmpty then chooseIdx avail (rng.picks rng.pIdx)
        else chooseIdx preferred (rng.picks rng.pIdx)) →
      ∀ target, target = prey.getD ti default →
      target.isPlant = true ∧ target.is_alive = true ∧
      (preferred ≠ [] → ti ∈ preferred ∧
        target.species_name.toLower = pref.toLower) ∧
      (preferred = [] → ti ∈ avail) ∧
      (0 ≤ target.energy →
        (herb_hunt self prey rng).2.2.1 = true ∧
        (herb_hunt self prey rng).1.energy = self.energy + min target.energy 25 ∧
        (herb_hunt self prey rng).1.food_eaten = self.food_eaten + 1 ∧
        ((herb_hunt self prey rng).2.1.getD ti default).energy =
          target.energy - min target.energy 25 ∧
        (∀ j, j ≠ ti →
          (herb_hunt self prey rng).2.1.getD j default = prey.getD j default))) := by
  have hpref : self.plant_preference = pref := by
    simp [Organism.plant_preference, hh]
  refine ⟨?_, ?_, ?_⟩
  · intro hdead
    unfold herb_hunt
    rw [if_pos hdead]
  · intro hnone
    unfold herb_hunt
    split
    · rfl
    · rw [if_pos (by simp [List.isEmpty_iff, hnone])]
  · intro halive avail havail hne preferred hpreferred ti hti target htarget
    have hmem : ti ∈ avail := by
      by_cases hpe : preferred = []
      · rw [hti, if_pos (by simp [List.isEmpty_iff, hpe])]
        exact chooseIdx_mem avail (rng.picks rng.pIdx) hne
      · rw [hti, if_neg (by simp [List.isEmpty_iff, hpe]), hpreferred]
        refine (List.mem_filter.mp (chooseIdx_mem _ _ ?_)).1
        rw [← hpreferred]
        exact hpe
    have hprop := idxWhere_prop prey _ ti (havail ▸ hmem)
    rw [← htarget] at hprop
    rw [Bool.and_eq_true] at hprop
    have hlt : ti < prey.length := idxWhere_lt prey _ ti (havail ▸ hmem)
    have hne' : idxWhere prey (fun o => o.isPlant && o.is_alive) ≠ [] :=
      havail ▸ hne
    refine ⟨hprop.1, hprop.2, ?_, ?_, ?_⟩
    · intro hpe
      have hmemp : ti ∈ preferred := by
        rw [hti, if_neg (by simp [List.isEmpty_iff, hpe])]
        exact chooseIdx_mem preferred (rng.picks rng.pIdx) hpe
      refine ⟨hmemp, ?_⟩
      have := (List.mem_filter.mp (hpreferred ▸ hmemp)).2
      rw [beq_iff_eq] at this
      rw [← htarget] at this
      exact this
    · intro hpe
      exact hmem
    · intro hte
      have hanimal : self.isAnimalKind = true := by
        simp [Organism.isAnimalKind, hh]
      have hti' : ti =
          (if ((idxWhere prey (fun o => o.isPlant && o.is_alive)).filter (fun i =>
                (prey.getD i default).species_name.toLower ==
                  self.plant_preference.toLower)).isEmpty
           then chooseIdx (idxWhere prey (fun o => o.isPlant && o.is_alive))
             (rng.picks rng.pIdx)
           else chooseIdx ((idxWhere prey (fun o => o.isPlant && o.is_alive)).filter
             (fun i => (prey.getD i default).species_name.toLower ==
               self.plant_preference.toLower)) (rng.picks rng.pIdx)) := by
        rw [hpref, ← havail, ← hpreferred]
        exact hti
      have hEq := herb_hunt_eq self prey rng ti target halive hne' hti' htarget
      rw [hEq]
      have hgain : (0:ℚ) ≤ min target.energy 25 := le_min hte (by norm_num)
      refine ⟨rfl, ?_, ?_, ?_, ?_⟩
      · rw [bumpFood_energy, setEnergy_energy_of_nonneg _ _ (add_nonneg hse hgain)]
      · rw [bumpFood_food_eaten _ (by rw [isAnimalKind_setEnergy]; exact hanimal),
          setEnergy_food_eaten]
      · rw [List.getD_eq_getElem?_getD, List.getElem?_set_self (by simpa using hlt)]
        have hsub : (0:ℚ) ≤ target.energy - min target.energy 25 := by
          have := min_le_left target.energy 25
          linarith
        simp only [Option.getD_some]
        exact setEnergy_energy_of_nonneg _ _ hsub
      · intro j hj
        rw [List.getD_eq_getElem?_getD, List.getElem?_set_ne (fun h => hj h.symm),
          ← List.getD_eq_getElem?_getD]

/-- Witness for C2: the Rabbit (preference "grass") forages a living Grass
plant whose species matches the preference case-insensitively: the forage
succeeds. -/
theorem herbivore_hunt_spec_witness :
    rabbitW.odata = OrgData.herbivore ⟨3, "herbivore", 0⟩ "grass" ∧
    (herb_hunt rabbitW [grassW] rngW).2.2.1 = true := by
  refine ⟨rfl, ?_⟩
  have h := herbivore_hunt_spec rabbitW ⟨3, "herbivore", 0⟩ "grass" [grassW] rngW
    rfl (by norm_num [rabbitW])
  have hne : idxWhere [grassW] (fun o => o.isPlant && o.is_alive) ≠ [] := by
    decide
  have hmain := h.2.2 rfl
    (idxWhere [grassW] (fun o => o.isPlant && o.is_alive)) rfl hne
    ((idxWhere [grassW] (fun o => o.isPlant && o.is_alive)).filter (fun i =>
      (([grassW] : List Organism).getD i default).species_name.toLower ==
        ("grass" : String).toLower)) rfl
    _ rfl _ rfl
  have hidx : idxWhere [grassW] (fun o => o.isPlant && o.is_alive) = [0] := by
    decide
  have hmem := (Classical.em _).elim (fun hpe => hmain.2.2.2.1 hpe)
    (fun hpe => (List.mem_filter.mp (hmain.2.2.1 hpe).1).1)
  rw [hidx] at hmem
  have hti0 := List.mem_singleton.mp hmem
  refine (hmain.2.2.2.2 ?_).1
  rw [hidx, hti0]
  show (0:ℚ) ≤ ((([grassW] : List Organism).getD 0 default)).energy
  norm_num [grassW]

theorem default_is_dead : (default : Organism).is_alive = false := rfl

theorem deadAt_set (l : List Organism) (i : ℕ) (v : Organism) (j : ℕ)
    (h : deadAt l j) (hv : j = i → v.is_alive = false) :
    deadAt (l.set i v) j := by
  unfold deadAt at h ⊢
  rw [List.getD_eq_getElem?_getD, List.getElem?_set]
  split
  · next hij =>
      split
      · exact hv hij.symm
      · exact default_is_dead
  · rw [← List.getD_eq_getElem?_getD]
    exact h

theorem deadAt_updAt (l : List Organism) (i : ℕ) (f : Organism → Organism)
    (hf : deadPres f) : deadLE l (updAt l i f) := by
  intro j hj
  unfold updAt
  refine deadAt_set l i _ j hj ?_
  intro hji
  subst hji
  exact hf _ hj

theorem deadAt_writeBack : ∀ (cands : List ℕ) (vals : List Organism)
    (orgs : List Organism) (i : ℕ), deadAt orgs i →
    (∀ k, k < cands.length → cands.getD k 0 = i →
      (vals.getD k default).is_alive = false) →
    deadAt (writeBack orgs cands vals) i := by
  intro cands
  induction cands with
  | nil => intro vals orgs i h _; cases vals <;> exact h
  | cons c cs ih =>
      intro vals orgs i h hv
      cases vals with
      | nil => exact h
      | cons v vs =>
          show deadAt (writeBack (orgs.set c v) cs vs) i
          refine ih vs (orgs.set c v) i ?_ ?_
          · refine deadAt_set orgs c v i h ?_
            intro hic
            exact hv 0 (Nat.succ_pos cs.length) hic.symm
          · intro k hk hc
            exact hv (k + 1) (Nat.succ_lt_succ hk) hc

theorem herb_hunt_self_dead (self : Organism) (prey : List Organism)
    (rng : RNG) (h : self.is_alive = false) :
    ((herb_hunt self prey rng).1).is_alive = false := by
  unfold herb_hunt
  rw [if_pos h]
  exact h

theorem carn_hunt_self_dead (self : Organism) (prey : List Organism)
    (rng : RNG) (h : self.is_alive = false) :
    ((carn_hunt self prey rng).1).is_alive = false := by
  unfold carn_hunt
  rw [if_pos h]
  exact h

theorem hunt_self_dead (self : Organism) (prey : List Organism) (rng : RNG)
    (h : self.is_alive = false) : ((hunt self prey rng).1).is_alive = false := by
  unfold hunt
  split
  · exact herb_hunt_self_dead self prey rng h
  · exact carn_hunt_self_dead self prey rng h
  · exact h

theorem herb_hunt_prey_dead (self : Organism) (prey : List Organism)
    (rng : RNG) (k : ℕ) (h : deadAt prey k) :
    deadAt ((herb_hunt self prey rng).2.1) k := by
  unfold herb_hunt
  split
  · exact h
  · dsimp only
    split
    · exact h
    · refine deadAt_set prey _ _ k h ?_
      intro hk
      subst hk
      exact setEnergy_dead _ _ h

theorem carn_hunt_prey_dead (self : Organism) (prey : List Organism)
    (rng : RNG) (k : ℕ) (h : deadAt prey k) :
    deadAt ((carn_hunt self prey rng).2.1) k := by
  unfold carn_hunt
  split
  · exact h
  · dsimp only
    split
    · exact h
    · split
      · refine deadAt_set prey _ _ k h ?_
        intro hk
        subst hk
        exact setEnergy_dead _ _ h
      · exact h

theorem hunt_prey_dead (self : Organism) (prey : List Organism) (rng : RNG)
    (k : ℕ) (h : deadAt prey k) : deadAt ((hunt self prey rng).2.1) k := by
  unfold hunt
  split
  · exact herb_hunt_prey_dead self prey rng k h
  · exact carn_hunt_prey_dead self prey rng k h
  · exact h

theorem applyHunt_deadLE (orgs : List Organism) (i : ℕ) (cands : List ℕ)
    (rng : RNG) : deadLE orgs (applyHunt orgs i cands rng).1 := by
  intro j hj
  unfold applyHunt
  refine deadAt_set _ i _ j ?_ ?_
  · refine deadAt_writeBack cands _ orgs j hj ?_
    intro k hk hc
    refine hunt_prey_dead _ _ rng k ?_
    unfold deadAt
    rw [List.getD_eq_getElem?_getD, List.getElem?_map,
      List.getElem?_eq_getElem hk]
    have : cands.getD k 0 = cands.get ⟨k, hk⟩ := by
      rw [List.getD_eq_getElem?_getD, List.getElem?_eq_getElem hk]
      rfl
    show (orgs.getD (cands.get ⟨k, hk⟩) default).is_alive = false
    rw [← this, hc]
    exact hj
  · intro hji
    subst hji
    exact hunt_self_dead _ _ rng hj

theorem huntLoop_deadLE (cands : List ℕ) :
    ∀ (hunters : List ℕ) (orgs : List Organism) (rng : RNG),
      deadLE orgs (huntLoop cands orgs rng hunters).1 := by
  intro hunters
  induction hunters with
  | nil => intro orgs rng j h; exact h
  | cons hd rest ih =>
      intro orgs rng j h
      unfold huntLoop
      split
      · exact ih _ _ j (applyHunt_deadLE orgs hd cands rng j h)
      · exact ih _ _ j h

theorem deadLE_map (l : List Organism) (f : Organism → Organism)
    (hf : deadPres f) : deadLE l (l.map f) := by
  intro j hj
  unfold deadAt at hj ⊢
  rw [List.getD_eq_getElem?_getD, List.getElem?_map]
  cases hL : l[j]? with
  | none => exact default_is_dead
  | some o =>
      rw [List.getD_eq_getElem?_getD, hL] at hj
      exact hf o hj

theorem photoMap_deadPres (w : String) :
    deadPres (fun o => if o.isPlant && o.is_alive
      then (photosynthesize o w).1 else o) := by
  intro o h
  dsimp only
  rw [if_neg (by simp [h])]
  exact h

theorem decayMap_deadPres :
    deadPres (fun o => if o.is_alive then
      (if o.isPlant then (consume_energy o 1).1
       else if o.isAnimalKind then (consume_energy o (2 + o.speed * (1/10))).1
       else o) else o) := by
  intro o h
  dsimp only
  rw [if_neg (by simp [h])]
  exact h

theorem setEnergy_bumpFood_dead (o : Organism) (v : ℚ)
    (h : o.is_alive = false) : ((setEnergy o v).bumpFood).is_alive = false := by
  rw [bumpFood_is_alive]
  exact setEnergy_dead o v h

theorem setEnergyFn_deadPres (v : ℚ) : deadPres (fun o => setEnergy o v) :=
  fun o h => setEnergy_dead o v h

theorem consumeFn_deadPres (amt : ℚ) :
    deadPres (fun o => (consume_energy o amt).1) :=
  fun o h => setEnergy_dead o _ h

theorem photoFn_deadPres (w : String) :
    deadPres (fun o => if o.isPlant then (photosynthesize o w).1 else o) := by
  intro o h
  dsimp only
  split
  · exact setEnergy_dead _ _ h
  · exact h

theorem simulate_day_deadLE (env : Environment) (rng : RNG) :
    deadLE env.organisms ((env.simulate_day rng).1).organisms := by
  intro j hj
  exact deadLE_map _ _ decayMap_deadPres j
    (huntLoop_deadLE _ _ _ _ j
      (huntLoop_deadLE _ _ _ _ j
        (deadLE_map _ _ (photoMap_deadPres _) j hj)))

theorem interact_fst_dead (self other : Organism) (d : ℚ)
    (h : self.is_alive = false) : ((interact self other d).1).is_alive = false := by
  unfold interact
  split
  · unfold plant_interact
    split
    · exact setEnergy_dead _ _ h
    · exact h
  · unfold herb_interact
    split
    · exact setEnergy_bumpFood_dead _ _ h
    · exact h
  · unfold carn_interact
    split
    · split
      · exact setEnergy_bumpFood_dead _ _ h
      · exact h
    · exact h
  · exact h

theorem interact_snd_dead (self other : Organism) (d : ℚ)
    (h : other.is_alive = false) :
    ((interact self other d).2.1).is_alive = false := by
  unfold interact
  split
  · unfold plant_interact
    split
    · exact setEnergy_dead _ _ h
    · exact h
  · unfold herb_interact
    split
    · exact setEnergy_dead _ _ h
    · exact h
  · unfold carn_interact
    split
    · split
      · exact setEnergy_dead _ _ h
      · exact h
    · exact h
  · exact h

theorem applyOp_deadLE (env : Environment) (op : Op) :
    deadLE env.organisms (applyOp env op).organisms := by
  cases op with
  | assign i v =>
      exact deadAt_updAt _ i _ (setEnergyFn_deadPres v)
  | consume i amt =>
      exact deadAt_updAt _ i _ (consumeFn_deadPres amt)
  | photo i w =>
      exact deadAt_updAt env.organisms i
        (fun o => if o.isPlant then (photosynthesize o w).1 else o)
        (photoFn_deadPres w)
  | huntOp i cands rng =>
      exact applyHunt_deadLE env.organisms i cands rng
  | interactOp i j draw =>
      intro k hk
      refine deadAt_set _ i _ k ?_ ?_
      · refine deadAt_set _ j _ k hk ?_
        intro hkj
        subst hkj
        exact interact_snd_dead _ _ draw hk
      · intro hki
        subst hki
        refine interact_fst_dead _ _ draw ?_
        unfold deadAt at hk
        exact hk
  | simDay rng =>
      exact simulate_day_deadLE env rng

theorem applyOps_deadLE (ops : List Op) :
    ∀ env : Environment, deadLE env.organisms (applyOps env ops).organisms := by
  induction ops with
  | nil => intro env j h; exact h
  | cons op rest ih =>
      intro env j h
      exact ih (applyOp env op) j (applyOp_deadLE env op j h)

/-- C5: death is permanent — an organism whose `is_alive` flag is false stays
dead under every sequence of the public operations (energy assignment,
`consume_energy`, `photosynthesize`, `hunt`, `interact`, `simulate_day`): the
energy setter can only clear the flag, never set it, so even raising a dead
organism's energy above zero does not revive it. -/
theorem death_is_permanent (ops : List Op) (env : Environment) (i : ℕ)
    (h : (env.organisms.getD i default).is_alive = false) :
    ((applyOps env ops).organisms.getD i default).is_alive = false :=
  applyOps_deadLE ops env i h

/-- Witness for C5: a dead Rabbit assigned energy 100 and then run through a
simulated day stays dead. -/
theorem death_is_permanent_witness :
    ((⟨"F", "sunny",
        [⟨"H1", "Rabbit", 0, false, .herbivore ⟨3, "herbivore", 0⟩ "grass"⟩],
        0, 1⟩ : Environment).organisms.getD 0 default).is_alive = false ∧
    ((applyOps ⟨"F", "sunny",
        [⟨"H1", "Rabbit", 0, false, .herbivore ⟨3, "herbivore", 0⟩ "grass"⟩],
        0, 1⟩ [.assign 0 100]).organisms.getD 0 default).is_alive = false :=
  ⟨rfl,
   death_is_permanent [.assign 0 100]
     ⟨"F", "sunny",
      [⟨"H1", "Rabbit", 0, false, .herbivore ⟨3, "herbivore", 0⟩ "grass"⟩],
      0, 1⟩ 0 rfl⟩

end Eco
